import Mathlib

/-!
Shallow embedding of the cross-cloud replicator core
(src/replicator.py, src/utils.py, src/config.py, src/exceptions.py).

Python exceptions become values of an inductive type `Exc`; fallible
operations return `Except Exc α`.  The remote backends (S3 and GCS) are
modelled as oracles: a per-attempt behaviour function describing what each
backend call returns or raises.  `time.time()` readings are modelled as
rational parameters.  Python floats for retry delays are modelled as `ℚ`.
-/

namespace CrossCloud

/-- Python exception values, one constructor per exception class that the
replicator's handlers distinguish.  `googleCloudError` covers
`google.cloud.exceptions.GoogleCloudError` and its subclasses;
`clientError` covers `botocore.exceptions.ClientError`, carrying the
response error code and message; `otherError` is any other `Exception`. -/
inductive Exc where
  | googleCloudError (msg : String)
  | clientError (code msg : String)
  | s3DownloadError (msg : String)
  | gcsUploadError (msg : String)
  | replicationError (msg : String)
  | otherError (msg : String)
deriving DecidableEq, Repr

/-- `str(e)` for a modelled exception: its message. -/
def Exc.message : Exc → String
  | .googleCloudError m => m
  | .clientError _ m => m
  | .s3DownloadError m => m
  | .gcsUploadError m => m
  | .replicationError m => m
  | .otherError m => m

/-- `isinstance(e, GoogleCloudError)` for a modelled exception. -/
def Exc.isGoogleCloudError : Exc → Bool
  | .googleCloudError _ => true
  | _ => false

/-- src/config.py: the `Config` dataclass (fields the engine reads, with
the dataclass defaults).  Retry delays are modelled as `ℚ`. -/
structure Config where
  aws_access_key_id : String
  aws_secret_access_key : String
  aws_region : String := "us-east-1"
  gcp_project_id : String := ""
  target_gcs_bucket : String := ""
  max_retries : Nat := 3
  retry_delay : ℚ := 1
  retry_backoff : ℚ := 2
  chunk_size : Nat := 8192

/-- src/utils.py `sanitize_gcs_object_name`: `s3_key.lstrip('/')`,
removing the leading run of `'/'` characters. -/
def sanitize_gcs_object_name (s3_key : String) : String :=
  ⟨s3_key.data.dropWhile (fun c => c == '/')⟩

/-- The chunked read loop of `_download_from_s3`: repeatedly
`body.read(chunk_size)` until an empty chunk, concatenating the chunks.
In Python, `read(0)` returns `b''`, so a zero chunk size terminates the
loop immediately with an empty stream. -/
def readAll (chunkSize : Nat) : List Nat → List Nat
  | [] => []
  | c :: cs =>
    if chunkSize = 0 then []
    else
      (c :: cs).take chunkSize ++ readAll chunkSize ((c :: cs).drop chunkSize)
termination_by l => l.length
decreasing_by
  simp_all
  omega

/-- Result of one run of the retry wrapper: the final outcome, the number
of times the wrapped operation was invoked, and the delays slept (in
order). -/
structure RetryResult (α : Type) where
  result : Except Exc α
  attempts : Nat
  sleeps : List ℚ
deriving Repr

/-- The loop body of src/utils.py `retry_with_backoff`:
`attempt` is the current 0-based attempt index, `remaining` the number of
further attempts allowed after this one, `currentDelay` the delay that
would be slept after this attempt fails.  On failure with attempts
remaining, sleep `currentDelay`, multiply it by `backoff`, retry; on
failure of the final attempt, re-raise the last exception unchanged. -/
def retryAux {α : Type} (op : Nat → Except Exc α) (backoff : ℚ) :
    Nat → Nat → ℚ → RetryResult α
  | attempt, remaining, currentDelay =>
    match op attempt with
    | .ok a => ⟨.ok a, attempt + 1, []⟩
    | .error e =>
      match remaining with
      | 0 => ⟨.error e, attempt + 1, []⟩
      | r + 1 =>
        let rest := retryAux op backoff (attempt + 1) r (currentDelay * backoff)
        ⟨rest.result, rest.attempts, currentDelay :: rest.sleeps⟩

/-- src/utils.py `retry_with_backoff(max_retries, delay, backoff)` applied
to an operation whose behaviour on the i-th invocation is `op i`. -/
def retry_with_backoff {α : Type} (max_retries : Nat) (delay backoff : ℚ)
    (op : Nat → Except Exc α) : RetryResult α :=
  retryAux op backoff 0 max_retries delay

/-- Per-call behaviour of the two remote backends, as seen by the engine:
what the GCS existence check returns or raises, what the i-th S3 fetch
attempt returns (the object's byte content) or raises, and what the i-th
GCS write attempt returns or raises. -/
structure Backends where
  existsResult : Except Exc Bool
  s3 : Nat → Except Exc (List Nat)
  gcs : Nat → Except Exc Unit

/-- src/replicator.py `_check_file_exists_in_gcs`: propagate a boolean
answer; catch `GoogleCloudError` only, logging and returning `False`; any
other exception escapes. -/
def _check_file_exists_in_gcs (existsResult : Except Exc Bool) :
    Except Exc Bool :=
  match existsResult with
  | .ok b => .ok b
  | .error e => if e.isGoogleCloudError then .ok false else .error e

/-- The body of src/replicator.py `_download_from_s3` for a single
attempt: on backend success, stream the content in `chunk_size` chunks
into a buffer; on `ClientError`, map the error code to an
`S3DownloadError` message; on any other exception, wrap it in an
`S3DownloadError` with an "Unexpected error" message. -/
def downloadAttempt (cfg : Config) (bucket key : String)
    (beh : Except Exc (List Nat)) : Except Exc (List Nat) :=
  match beh with
  | .ok content => .ok (readAll cfg.chunk_size content)
  | .error (.clientError code msg) =>
    if code = "NoSuchKey" then
      .error (.s3DownloadError ("File not found: s3://" ++ bucket ++ "/" ++ key))
    else if code = "NoSuchBucket" then
      .error (.s3DownloadError ("Bucket not found: " ++ bucket))
    else
      .error (.s3DownloadError ("S3 download failed: " ++ msg))
  | .error e =>
    .error (.s3DownloadError ("Unexpected error during S3 download: " ++ e.message))

/-- The body of src/replicator.py `_upload_to_gcs` for a single attempt:
map `GoogleCloudError` to `GCSUploadError "GCS upload failed: ..."` and
any other exception to `GCSUploadError "Unexpected error during GCS
upload: ..."`. -/
def uploadAttempt (beh : Except Exc Unit) : Except Exc Unit :=
  match beh with
  | .ok _ => .ok ()
  | .error (.googleCloudError m) =>
    .error (.gcsUploadError ("GCS upload failed: " ++ m))
  | .error e =>
    .error (.gcsUploadError ("Unexpected error during GCS upload: " ++ e.message))

/-- The dict returned by `replicate`: keys absent from a given return
path are modelled as `none`.  The status is the literal string the code
puts in the dict. -/
structure Outcome where
  status : String
  source : String
  destination : String
  duration_seconds : ℚ
  size_bytes : Option Nat := none
  reason : Option String := none
  error : Option String := none
deriving Repr

/-- Observable interaction of one `replicate` call with the backends:
the destination object name used, how many times the S3 fetch body and
the GCS write body ran, and the delays the retry wrapper slept around
each. -/
structure Trace where
  objectName : String
  fetchCalls : Nat
  writeCalls : Nat
  fetchSleeps : List ℚ
  writeSleeps : List ℚ
deriving Repr

/-- The `except` clauses at the end of `replicate`:
`(S3DownloadError, GCSUploadError)` produce `str(e)`; the catch-all
`Exception` clause prefixes "Unexpected error: ". -/
def outerHandlerMessage (e : Exc) : String :=
  match e with
  | .s3DownloadError m => m
  | .gcsUploadError m => m
  | _ => "Unexpected error: " ++ e.message

/-- src/replicator.py `CrossCloudReplicator.replicate`.  `tStart` and
`tEnd` model the `time.time()` readings at entry and at the terminal
return.  The retry parameters are the literals of the decorators in the
source: `max_retries=3, delay=1.0, backoff=2.0` (the `Config` retry
fields are not consulted). -/
def replicate (cfg : Config) (b : Backends) (s3_bucket s3_key : String)
    (tStart tEnd : ℚ) : Outcome × Trace :=
  let object_name := sanitize_gcs_object_name s3_key
  let source := "s3://" ++ s3_bucket ++ "/" ++ s3_key
  let destination := "gs://" ++ cfg.target_gcs_bucket ++ "/" ++ object_name
  let duration := tEnd - tStart
  match _check_file_exists_in_gcs b.existsResult with
  | .error e =>
    (⟨"failed", source, destination, duration, none, none,
        some (outerHandlerMessage e)⟩,
     ⟨object_name, 0, 0, [], []⟩)
  | .ok true =>
    (⟨"skipped", source, destination, duration, none,
        some "file_already_exists", none⟩,
     ⟨object_name, 0, 0, [], []⟩)
  | .ok false =>
    let fetch := retry_with_backoff 3 1 2
        (fun i => downloadAttempt cfg s3_bucket s3_key (b.s3 i))
    match fetch.result with
    | .error e =>
      (⟨"failed", source, destination, duration, none, none,
          some (outerHandlerMessage e)⟩,
       ⟨object_name, fetch.attempts, 0, fetch.sleeps, []⟩)
    | .ok stream =>
      let write := retry_with_backoff 3 1 2 (fun i => uploadAttempt (b.gcs i))
      match write.result with
      | .error e =>
        (⟨"failed", source, destination, duration, none, none,
            some (outerHandlerMessage e)⟩,
         ⟨object_name, fetch.attempts, write.attempts, fetch.sleeps,
            write.sleeps⟩)
      | .ok _ =>
        (⟨"success", source, destination, duration, some stream.length,
            none, none⟩,
         ⟨object_name, fetch.attempts, write.attempts, fetch.sleeps,
            write.sleeps⟩)


/-! ### Helper lemmas -/

/-- A positive chunk size reproduces the whole content: the chunked read
loop concatenates its `take`/`drop` pieces back into the original list. -/
theorem readAll_bounded (cs : Nat) (h : cs ≠ 0) :
    ∀ (n : Nat) (l : List Nat), l.length ≤ n → readAll cs l = l := by
  intro n
  induction n with
  | zero =>
    intro l hl
    have hnil : l = [] := List.eq_nil_of_length_eq_zero (Nat.le_zero.mp hl)
    subst hnil
    rw [readAll]
  | succ n ih =>
    intro l hl
    match l with
    | [] => rw [readAll]
    | c :: tl =>
      rw [readAll, if_neg h]
      have hlen : ((c :: tl).drop cs).length ≤ n := by
        simp only [List.length_drop, List.length_cons]
        simp only [List.length_cons] at hl
        omega
      rw [ih _ hlen, List.take_append_drop]

/-- Streaming with a positive chunk size is the identity on content. -/
theorem readAll_eq_of_pos {cs : Nat} (h : 0 < cs) (l : List Nat) :
    readAll cs l = l :=
  readAll_bounded cs (Nat.pos_iff_ne_zero.mp h) l.length l le_rfl

/-- Unfolding `retryAux` when the current attempt succeeds. -/
theorem retryAux_ok {α : Type} (op : Nat → Except Exc α) (β : ℚ) (a r : Nat)
    (d : ℚ) (v : α) (h : op a = .ok v) :
    retryAux op β a r d = ⟨.ok v, a + 1, []⟩ := by
  rw [retryAux, h]

/-- Unfolding `retryAux` when the final allowed attempt fails. -/
theorem retryAux_err_zero {α : Type} (op : Nat → Except Exc α) (β : ℚ) (a : Nat)
    (d : ℚ) (e : Exc) (h : op a = .error e) :
    retryAux op β a 0 d = ⟨.error e, a + 1, []⟩ := by
  rw [retryAux, h]

/-- Unfolding `retryAux` when a non-final attempt fails: sleep the current
delay, multiply it by the backoff factor, and continue. -/
theorem retryAux_err_succ {α : Type} (op : Nat → Except Exc α) (β : ℚ)
    (a r : Nat) (d : ℚ) (e : Exc) (h : op a = .error e) :
    retryAux op β a (r + 1) d =
      ⟨(retryAux op β (a + 1) r (d * β)).result,
        (retryAux op β (a + 1) r (d * β)).attempts,
        d :: (retryAux op β (a + 1) r (d * β)).sleeps⟩ := by
  rw [retryAux, h]

/-- The geometric delay schedule, shifted by one multiplication. -/
theorem geomSched_cons (d β : ℚ) (r : Nat) :
    d :: (List.range r).map (fun i => d * β * β ^ i) =
      (List.range (r + 1)).map (fun i => d * β ^ i) := by
  rw [List.range_succ_eq_map, List.map_cons, List.map_map]
  congr 1
  · simp
  · refine List.map_congr_left ?_
    intro i _
    simp only [Function.comp_apply, pow_succ]
    ring

/-- If every attempt in the window fails, the retry loop invokes the
operation once per allowed attempt, sleeps the geometric schedule, and
re-raises the final attempt's exception unchanged. -/
theorem retryAux_all_fail {α : Type} (op : Nat → Except Exc α) (β : ℚ)
    (errs : Nat → Exc) :
    ∀ (r a : Nat) (d : ℚ),
      (∀ i, a ≤ i → i ≤ a + r → op i = .error (errs i)) →
      retryAux op β a r d =
        ⟨.error (errs (a + r)), a + r + 1,
          (List.range r).map (fun i => d * β ^ i)⟩ := by
  intro r
  induction r with
  | zero =>
    intro a d hop
    have h0 : op a = .error (errs a) := hop a le_rfl (by omega)
    simp [retryAux_err_zero op β a d (errs a) h0]
  | succ r ih =>
    intro a d hop
    have h0 : op a = .error (errs a) := hop a le_rfl (by omega)
    have hrest := ih (a + 1) (d * β) (fun i h1 h2 => hop i (by omega) (by omega))
    have hidx : a + 1 + r = a + (r + 1) := by omega
    rw [retryAux_err_succ op β a r d (errs a) h0, hrest]
    rw [hidx] at hrest ⊢
    rw [geomSched_cons]

/-- If the first `k` attempts fail and attempt `k` succeeds (within the
budget), the retry loop returns that success after exactly `k + 1`
invocations. -/
theorem retryAux_ok_after {α : Type} (op : Nat → Except Exc α) (β : ℚ)
    (v : α) :
    ∀ (k r a : Nat) (d : ℚ), k ≤ r →
      (∀ i, a ≤ i → i < a + k → ∃ e, op i = .error e) →
      op (a + k) = .ok v →
      (retryAux op β a r d).result = .ok v ∧
        (retryAux op β a r d).attempts = a + k + 1 := by
  intro k
  induction k with
  | zero =>
    intro r a d _ _ hok
    simp only [Nat.add_zero] at hok ⊢
    rw [retryAux_ok op β a r d v hok]
    exact ⟨rfl, rfl⟩
  | succ k ih =>
    intro r a d hkr hfail hok
    obtain ⟨e, he⟩ := hfail a le_rfl (by omega)
    cases r with
    | zero => omega
    | succ r =>
      have harg : a + 1 + k = a + (k + 1) := by omega
      have hrec := ih r (a + 1) (d * β) (by omega)
        (fun i h1 h2 => hfail i (by omega) (by omega))
        (by rw [harg]; exact hok)
      rw [retryAux_err_succ op β a r d e he]
      refine ⟨hrec.1, ?_⟩
      show (retryAux op β (a + 1) r (d * β)).attempts = a + (k + 1) + 1
      rw [hrec.2]
      omega

/-- Every failing behaviour handed to the download body surfaces as an
`S3DownloadError`. -/
theorem downloadAttempt_error (cfg : Config) (bucket key : String)
    (e : Exc) :
    ∃ m, downloadAttempt cfg bucket key (.error e) =
      .error (.s3DownloadError m) := by
  cases e
  case clientError code msg =>
    simp only [downloadAttempt]
    split_ifs <;> exact ⟨_, rfl⟩
  all_goals exact ⟨_, rfl⟩

/-- Dropping while a predicate holds is dropping the length of the
matching prefix. -/
theorem dropWhile_eq_drop_len (p : Char → Bool) :
    ∀ l : List Char, l.dropWhile p = l.drop (l.takeWhile p).length := by
  intro l
  induction l with
  | nil => rfl
  | cons c tl ih =>
    by_cases hp : p c
    · simp [List.dropWhile_cons, List.takeWhile_cons, hp, ih]
    · simp [List.dropWhile_cons, List.takeWhile_cons, hp]

/-- The first character surviving `dropWhile` fails the predicate. -/
theorem head_dropWhile_ne (p : Char → Bool) :
    ∀ (l : List Char) (c : Char),
      (l.dropWhile p).head? = some c → p c = false := by
  intro l
  induction l with
  | nil => intro c h; simp [List.dropWhile] at h
  | cons a tl ih =>
    intro c h
    by_cases hp : p a
    · rw [List.dropWhile_cons_of_pos hp] at h
      exact ih c h
    · rw [List.dropWhile_cons_of_neg hp] at h
      simp only [List.head?_cons, Option.some.injEq] at h
      subst h
      simpa using hp

/-! ### Claim theorems -/

/-- C7: the destination object name derived from a key strips all leading
path separators and only those: every stripped character is a `'/'`, the
result is exactly the suffix of the key after the leading run of `'/'`
(all later characters kept unchanged, in order), the result does not
start with `'/'`, and the derivation is idempotent. -/
theorem sanitize_strips_leading_separators_only (k : String) :
    (∀ c ∈ k.data.takeWhile (fun c => c == '/'), c = '/') ∧
    (sanitize_gcs_object_name k).data =
      k.data.drop (k.data.takeWhile (fun c => c == '/')).length ∧
    (∀ c, (sanitize_gcs_object_name k).data.head? = some c → c ≠ '/') ∧
    sanitize_gcs_object_name (sanitize_gcs_object_name k) =
      sanitize_gcs_object_name k := by
  refine ⟨?_, ?_, ?_, ?_⟩
  · intro c hc
    simpa using List.mem_takeWhile_imp hc
  · exact dropWhile_eq_drop_len _ k.data
  · intro c hc hcontra
    have := head_dropWhile_ne (fun c => c == '/') k.data c hc
    rw [hcontra] at this
    simp at this
  · show (⟨List.dropWhile (fun c => c == '/')
        (List.dropWhile (fun c => c == '/') k.data)⟩ : String) =
      ⟨List.dropWhile (fun c => c == '/') k.data⟩
    exact congrArg String.mk (List.dropWhile_idempotent _ _)

/-- A concrete configuration for counterexample runs. -/
def cfg0 : Config :=
  { aws_access_key_id := "AK", aws_secret_access_key := "SK",
    target_gcs_bucket := "dest-bucket" }

/-- Backends whose existence check answers `true`. -/
def backendsExistsTrue : Backends :=
  ⟨.ok true, fun _ => .ok [1, 2, 3], fun _ => .ok ()⟩

/-- C2 counterexample: when the destination already exists, the returned
reason string is `"file_already_exists"`, not the claimed
`"destination already exists"`. -/
theorem skip_reason_string_counterexample :
    (replicate cfg0 backendsExistsTrue "src" "a.txt" 0 0).1.status =
      "skipped" ∧
    (replicate cfg0 backendsExistsTrue "src" "a.txt" 0 0).1.reason =
      some "file_already_exists" ∧
    (replicate cfg0 backendsExistsTrue "src" "a.txt" 0 0).1.reason ≠
      some "destination already exists" := by
  refine ⟨rfl, rfl, ?_⟩
  intro h
  rw [show (replicate cfg0 backendsExistsTrue "src" "a.txt" 0 0).1.reason =
      some "file_already_exists" from rfl] at h
  simp at h

/-- C2 (amended): if the destination existence check returns true, the
outcome is skipped with reason `"file_already_exists"` and neither the
fetch body nor the write body ever runs. -/
theorem replicate_skips_when_destination_exists (cfg : Config)
    (b : Backends) (bucket key : String) (t1 t2 : ℚ)
    (h : b.existsResult = .ok true) :
    (replicate cfg b bucket key t1 t2).1.status = "skipped" ∧
    (replicate cfg b bucket key t1 t2).1.reason =
      some "file_already_exists" ∧
    (replicate cfg b bucket key t1 t2).2.fetchCalls = 0 ∧
    (replicate cfg b bucket key t1 t2).2.writeCalls = 0 := by
  unfold replicate
  simp [h, _check_file_exists_in_gcs]

/-- Witness for the amended C2 theorem at a concrete request. -/
theorem replicate_skips_when_destination_exists_witness :
    (replicate cfg0 backendsExistsTrue "src" "a.txt" 0 0).1.status =
      "skipped" ∧
    (replicate cfg0 backendsExistsTrue "src" "a.txt" 0 0).1.reason =
      some "file_already_exists" ∧
    (replicate cfg0 backendsExistsTrue "src" "a.txt" 0 0).2.fetchCalls = 0 ∧
    (replicate cfg0 backendsExistsTrue "src" "a.txt" 0 0).2.writeCalls = 0 :=
  replicate_skips_when_destination_exists cfg0 backendsExistsTrue
    "src" "a.txt" 0 0 rfl

/-- Backends whose existence check raises an exception that is not a
`GoogleCloudError`. -/
def backendsExistsBoom : Backends :=
  ⟨.error (.otherError "connection reset"), fun _ => .ok [1],
    fun _ => .ok ()⟩

/-- C5 counterexample: one concrete backend error during the existence
check — an exception that is not a `GoogleCloudError` — is not absorbed:
the replication performs zero fetch calls and zero write calls instead of
proceeding, and the check's failure is surfaced as a failed outcome,
falsifying the claim, as stated for any backend error, at this input. -/
theorem existence_check_error_surfaces_counterexample :
    (replicate cfg0 backendsExistsBoom "src" "a.txt" 0 0).2.fetchCalls =
      0 ∧
    (replicate cfg0 backendsExistsBoom "src" "a.txt" 0 0).2.writeCalls =
      0 ∧
    (replicate cfg0 backendsExistsBoom "src" "a.txt" 0 0).1.status =
      "failed" ∧
    (replicate cfg0 backendsExistsBoom "src" "a.txt" 0 0).1.error =
      some "Unexpected error: connection reset" :=
  ⟨rfl, rfl, rfl, rfl⟩

/-- C5 (amended): if a `GoogleCloudError` occurs during the destination
existence check, the check does not fail the overall replication: it
returns false, and the whole replication behaves exactly as if the
destination did not exist — it proceeds to fetch and write, and the
existence-check failure is never surfaced in the outcome. -/
theorem gce_existence_error_absorbed (cfg : Config) (m : String)
    (s3 : Nat → Except Exc (List Nat)) (gcs : Nat → Except Exc Unit)
    (bucket key : String) (t1 t2 : ℚ) :
    _check_file_exists_in_gcs (.error (.googleCloudError m)) = .ok false ∧
    replicate cfg ⟨.error (.googleCloudError m), s3, gcs⟩ bucket key t1 t2 =
      replicate cfg ⟨.ok false, s3, gcs⟩ bucket key t1 t2 :=
  ⟨rfl, rfl⟩

/-- C1: for every pair of string inputs and every behaviour of the
backends (existence check, fetch, write succeeding or raising any
exception), `replicate` never raises to its caller — it is a total
function into `Outcome` — the returned status is one of skipped, success
or failed, and an error message is present exactly when the status is
failed. -/
theorem replicate_never_raises_structured_outcome (cfg : Config)
    (b : Backends) (bucket key : String) (t1 t2 : ℚ) :
    ((replicate cfg b bucket key t1 t2).1.status = "skipped" ∨
      (replicate cfg b bucket key t1 t2).1.status = "success" ∨
      (replicate cfg b bucket key t1 t2).1.status = "failed") ∧
    ((replicate cfg b bucket key t1 t2).1.status = "failed" ↔
      ∃ m, (replicate cfg b bucket key t1 t2).1.error = some m) := by
  unfold replicate
  dsimp only
  split
  · simp
  · simp
  · split
    · simp
    · split <;> simp

/-- C6: every outcome returned by `replicate` populates exactly one of
size_bytes, reason, error: size_bytes is present iff the status is
success, reason iff skipped, error iff failed. -/
theorem outcome_populates_exactly_matching_field (cfg : Config)
    (b : Backends) (bucket key : String) (t1 t2 : ℚ) :
    ((replicate cfg b bucket key t1 t2).1.size_bytes.isSome ↔
      (replicate cfg b bucket key t1 t2).1.status = "success") ∧
    ((replicate cfg b bucket key t1 t2).1.reason.isSome ↔
      (replicate cfg b bucket key t1 t2).1.status = "skipped") ∧
    ((replicate cfg b bucket key t1 t2).1.error.isSome ↔
      (replicate cfg b bucket key t1 t2).1.status = "failed") := by
  unfold replicate
  dsimp only
  split
  · simp
  · simp
  · split
    · simp
    · split <;> simp

/-- A configuration that requests zero retries and distinctive delay
parameters. -/
def cfgNoRetries : Config :=
  { aws_access_key_id := "AK", aws_secret_access_key := "SK",
    target_gcs_bucket := "dest-bucket", max_retries := 0,
    retry_delay := 9, retry_backoff := 5 }

/-- Backends where the destination is absent and every fetch attempt
fails. -/
def backendsFetchAlwaysFails : Backends :=
  ⟨.ok false, fun _ => .error (.otherError "s3 down"), fun _ => .ok ()⟩

/-- C3 (code bug): the engine's retry behaviour does not follow the
configuration.  With `max_retries = 0` and `retry_delay = 9` in the
configuration, an always-failing fetch is still attempted 4 times with
sleeps 1, 2, 4 — the decorator literals `(3, 1.0, 2.0)` from
src/replicator.py, not the configured values. -/
theorem retry_parameters_ignore_configuration :
    cfgNoRetries.max_retries = 0 ∧
    cfgNoRetries.retry_delay = 9 ∧
    (replicate cfgNoRetries backendsFetchAlwaysFails "src" "a.txt" 0 0
      ).2.fetchCalls = 4 ∧
    (replicate cfgNoRetries backendsFetchAlwaysFails "src" "a.txt" 0 0
      ).2.fetchSleeps = [1, 2, 4] := by
  refine ⟨rfl, rfl, rfl, ?_⟩
  have h : (replicate cfgNoRetries backendsFetchAlwaysFails "src" "a.txt"
      0 0).2.fetchSleeps = [1, 1 * 2, 1 * 2 * 2] := rfl
  rw [h]
  norm_num

/-- The geometric backoff schedule is non-decreasing when the starting
delay is non-negative and the multiplier is at least one. -/
theorem geomSched_chain (d β : ℚ) (hd : 0 ≤ d) (hβ : 1 ≤ β) (m : Nat) :
    List.Chain' (fun x y => x ≤ y)
      ((List.range m).map (fun i => d * β ^ i)) := by
  rw [List.chain'_map]
  cases m with
  | zero => simp
  | succ n =>
    rw [List.chain'_range_succ]
    intro i hi
    have h1 : (β : ℚ) ^ i ≤ β ^ (i + 1) := pow_le_pow_right₀ hβ (Nat.le_succ i)
    exact mul_le_mul_of_nonneg_left h1 hd

/-- C4: if the wrapped operation fails on every attempt, the backoff
executor invokes it exactly `max_retries + 1` times, sleeps exactly
`max_retries` times with the non-decreasing delays
`δ, δ·β, δ·β², …`, and propagates the final attempt's exception
unchanged. -/
theorem retry_exhaustion_schedule {α : Type} (m : Nat) (δ β : ℚ)
    (op : Nat → Except Exc α) (errs : Nat → Exc)
    (hδ : 0 < δ) (hβ : 1 ≤ β)
    (hop : ∀ i, i ≤ m → op i = .error (errs i)) :
    retry_with_backoff m δ β op =
      ⟨.error (errs m), m + 1, (List.range m).map (fun i => δ * β ^ i)⟩ ∧
    List.Chain' (fun x y => x ≤ y)
      ((List.range m).map (fun i => δ * β ^ i)) := by
  constructor
  · have h := retryAux_all_fail op β errs m 0 δ (fun i h1 h2 => hop i (by omega))
    simpa [retry_with_backoff] using h
  · exact geomSched_chain δ β hδ.le hβ m

/-- Witness for C4 at a concrete always-failing operation. -/
theorem retry_exhaustion_schedule_witness :
    retry_with_backoff 2 1 2
        (fun _ => (.error (.otherError "x") : Except Exc Unit)) =
      ⟨.error (.otherError "x"), 3,
        (List.range 2).map (fun i => 1 * 2 ^ i)⟩ ∧
    List.Chain' (fun x y => x ≤ y)
      ((List.range 2).map (fun i : Nat => (1 : ℚ) * 2 ^ i)) :=
  retry_exhaustion_schedule 2 1 2 _ (fun _ => .otherError "x")
    (by norm_num) (by norm_num) (fun i _ => rfl)

/-- C8: when the destination is absent, the first fetch attempt succeeds
with the source content and the first write attempt succeeds, the
outcome is success, size_bytes equals the byte count fetch produced (the
full source content, given a positive chunk size), and the duration is
non-negative (given non-decreasing clock readings). -/
theorem replicate_success_size_and_duration (cfg : Config) (b : Backends)
    (bucket key : String) (t1 t2 : ℚ) (content : List Nat)
    (hex : b.existsResult = .ok false)
    (hs3 : b.s3 0 = .ok content)
    (hgcs : b.gcs 0 = .ok ())
    (hchunk : 0 < cfg.chunk_size)
    (ht : t1 ≤ t2) :
    (replicate cfg b bucket key t1 t2).1.status = "success" ∧
    (replicate cfg b bucket key t1 t2).1.size_bytes =
      some content.length ∧
    0 ≤ (replicate cfg b bucket key t1 t2).1.duration_seconds := by
  have hop0 : (fun i => downloadAttempt cfg bucket key (b.s3 i)) 0 =
      .ok content := by
    simp [hs3, downloadAttempt, readAll_eq_of_pos hchunk]
  have hfetch := retryAux_ok
    (fun i => downloadAttempt cfg bucket key (b.s3 i)) 2 0 3 1 content hop0
  have hwop0 : (fun i => uploadAttempt (b.gcs i)) 0 = .ok () := by
    simp [hgcs, uploadAttempt]
  have hwrite := retryAux_ok (fun i => uploadAttempt (b.gcs i)) 2 0 3 1 () hwop0
  unfold replicate retry_with_backoff
  simp only [hex, _check_file_exists_in_gcs, hfetch, hwrite]
  refine ⟨by trivial, by trivial, sub_nonneg.mpr ht⟩

/-- Witness for C8 at a concrete three-byte object. -/
theorem replicate_success_size_and_duration_witness :
    (replicate cfg0 ⟨.ok false, fun _ => .ok [7, 8, 9], fun _ => .ok ()⟩
        "src" "f.bin" 0 1).1.status = "success" ∧
    (replicate cfg0 ⟨.ok false, fun _ => .ok [7, 8, 9], fun _ => .ok ()⟩
        "src" "f.bin" 0 1).1.size_bytes = some ([7, 8, 9] : List Nat).length ∧
    0 ≤ (replicate cfg0 ⟨.ok false, fun _ => .ok [7, 8, 9], fun _ => .ok ()⟩
        "src" "f.bin" 0 1).1.duration_seconds :=
  replicate_success_size_and_duration cfg0
    ⟨.ok false, fun _ => .ok [7, 8, 9], fun _ => .ok ()⟩ "src" "f.bin" 0 1
    [7, 8, 9] rfl rfl rfl (by decide) (by norm_num)

/-- C9: when the destination is absent, fetch fails on the first three
attempts (the engine's retry budget) and succeeds on the final fourth
attempt, and the first write attempt succeeds, the outcome is success
and the write body runs exactly once. -/
theorem replicate_success_after_fetch_retries (cfg : Config)
    (b : Backends) (bucket key : String) (t1 t2 : ℚ) (content : List Nat)
    (errs : Nat → Exc)
    (hex : b.existsResult = .ok false)
    (hfail : ∀ i, i < 3 → b.s3 i = .error (errs i))
    (hok : b.s3 3 = .ok content)
    (hgcs : b.gcs 0 = .ok ()) :
    (replicate cfg b bucket key t1 t2).1.status = "success" ∧
    (replicate cfg b bucket key t1 t2).2.writeCalls = 1 := by
  have hopfail : ∀ i, 0 ≤ i → i < 0 + 3 →
      ∃ e, (fun i => downloadAttempt cfg bucket key (b.s3 i)) i = .error e := by
    intro i _ h2
    obtain ⟨m, hm⟩ := downloadAttempt_error cfg bucket key (errs i)
    refine ⟨.s3DownloadError m, ?_⟩
    simp only []
    rw [hfail i (by omega)]
    exact hm
  have hopok : (fun i => downloadAttempt cfg bucket key (b.s3 i)) (0 + 3) =
      .ok (readAll cfg.chunk_size content) := by
    simp [hok, downloadAttempt]
  have hfetch := retryAux_ok_after
    (fun i => downloadAttempt cfg bucket key (b.s3 i)) 2
    (readAll cfg.chunk_size content) 3 3 0 1 le_rfl hopfail hopok
  have hwop0 : (fun i => uploadAttempt (b.gcs i)) 0 = .ok () := by
    simp [hgcs, uploadAttempt]
  have hwrite := retryAux_ok (fun i => uploadAttempt (b.gcs i)) 2 0 3 1 () hwop0
  unfold replicate retry_with_backoff
  simp only [hex, _check_file_exists_in_gcs, hfetch.1, hwrite]
  exact ⟨by trivial, by trivial⟩

/-- Backends where the destination is absent and fetch fails three times
before succeeding. -/
def backendsFlaky : Backends :=
  ⟨.ok false,
    fun i => if i < 3 then .error (.otherError "timeout") else .ok [5],
    fun _ => .ok ()⟩

/-- Witness for C9 at a concrete flaky fetch. -/
theorem replicate_success_after_fetch_retries_witness :
    (replicate cfg0 backendsFlaky "src" "f.bin" 0 1).1.status =
      "success" ∧
    (replicate cfg0 backendsFlaky "src" "f.bin" 0 1).2.writeCalls = 1 :=
  replicate_success_after_fetch_retries cfg0 backendsFlaky "src" "f.bin"
    0 1 [5] (fun _ => .otherError "timeout") rfl (fun _ h => if_pos h)
    rfl rfl

/-- C10: a key consisting only of path separators derives the empty
destination object name, and `replicate` does not reject it: with the
existence check answering false it proceeds to run the fetch and the
write against the empty object name. -/
theorem replicate_accepts_separator_only_key (cfg : Config) (key : String)
    (content : List Nat) (bucket : String) (t1 t2 : ℚ)
    (hkey : ∀ c ∈ key.data, c = '/') :
    sanitize_gcs_object_name key = "" ∧
    (replicate cfg ⟨.ok false, fun _ => .ok content, fun _ => .ok ()⟩
        bucket key t1 t2).2.objectName = "" ∧
    (replicate cfg ⟨.ok false, fun _ => .ok content, fun _ => .ok ()⟩
        bucket key t1 t2).2.fetchCalls = 1 ∧
    (replicate cfg ⟨.ok false, fun _ => .ok content, fun _ => .ok ()⟩
        bucket key t1 t2).2.writeCalls = 1 ∧
    (replicate cfg ⟨.ok false, fun _ => .ok content, fun _ => .ok ()⟩
        bucket key t1 t2).1.status = "success" := by
  have hsan : sanitize_gcs_object_name key = "" := by
    have hnil : key.data.dropWhile (fun c => c == '/') = [] :=
      List.dropWhile_eq_nil_iff.mpr (fun x hx => by simp [hkey x hx])
    unfold sanitize_gcs_object_name
    rw [hnil]
  have hop0 : (fun i => downloadAttempt cfg bucket key
      ((⟨.ok false, fun _ => .ok content, fun _ => .ok ()⟩ :
        Backends).s3 i)) 0 = .ok (readAll cfg.chunk_size content) := by
    simp [downloadAttempt]
  have hfetch := retryAux_ok (fun i => downloadAttempt cfg bucket key
      ((⟨.ok false, fun _ => .ok content, fun _ => .ok ()⟩ :
        Backends).s3 i)) 2 0 3 1 _ hop0
  have hwop0 : (fun i => uploadAttempt
      ((⟨.ok false, fun _ => .ok content, fun _ => .ok ()⟩ :
        Backends).gcs i)) 0 = .ok () := by
    simp [uploadAttempt]
  have hwrite := retryAux_ok (fun i => uploadAttempt
      ((⟨.ok false, fun _ => .ok content, fun _ => .ok ()⟩ :
        Backends).gcs i)) 2 0 3 1 () hwop0
  unfold replicate retry_with_backoff
  simp [_check_file_exists_in_gcs, hfetch, hwrite, hsan]

/-- Witness for C10 at the concrete key `"///"`. -/
theorem replicate_accepts_separator_only_key_witness :
    sanitize_gcs_object_name "///" = "" ∧
    (replicate cfg0 ⟨.ok false, fun _ => .ok [5], fun _ => .ok ()⟩
        "src" "///" 0 1).2.objectName = "" ∧
    (replicate cfg0 ⟨.ok false, fun _ => .ok [5], fun _ => .ok ()⟩
        "src" "///" 0 1).2.fetchCalls = 1 ∧
    (replicate cfg0 ⟨.ok false, fun _ => .ok [5], fun _ => .ok ()⟩
        "src" "///" 0 1).2.writeCalls = 1 ∧
    (replicate cfg0 ⟨.ok false, fun _ => .ok [5], fun _ => .ok ()⟩
        "src" "///" 0 1).1.status = "success" :=
  replicate_accepts_separator_only_key cfg0 "///" [5] "src" 0 1
    (by decide)

end CrossCloud
